import Mathlib

/-!
# Majority-color task generator: a shallow embedding

This file embeds the task-data synthesis core of the majority-color
data generator (`src/generator.py`) and proves the specified invariants
about it.

Modelling conventions:
* Python ints are `ℕ` where the source only ever holds non-negative
  values (counts, sizes, coordinates sampled from non-negative ranges)
  and `ℤ` where subtraction may go below zero (bounding-box corners).
* Python floats are `ℚ`; `int(...)` truncation toward zero is `int_trunc`.
* PIL canvases are modelled by the ordered list of drawing commands
  issued against them (`Canvas`): the drawing backend is an external
  collaborator, so a frame is characterised by the primitives sent to it.
* Randomness (`random.sample`, `random.choice`, `random.randint`,
  `random.shuffle`) is modelled by explicit oracle parameters; theorems
  constrain each parameter exactly by the range the source requests at
  the corresponding call site.
-/

/-- An RGB triple, as in the source's color tuples. -/
abbrev Color := ℤ × ℤ × ℤ

/-- The fixed ten-entry palette `self.color_palette`. -/
def color_palette : List Color :=
  [(255, 0, 0), (0, 255, 0), (0, 0, 255), (255, 255, 0), (255, 0, 255),
   (0, 255, 255), (255, 165, 0), (128, 0, 128), (255, 192, 203), (165, 42, 42)]

/-- The name lookup `self.color_names` (a total function on the palette;
away from the palette the lookup would raise, modelled by `""`). -/
def color_name (c : Color) : String :=
  if c = (255, 0, 0) then "red"
  else if c = (0, 255, 0) then "green"
  else if c = (0, 0, 255) then "blue"
  else if c = (255, 255, 0) then "yellow"
  else if c = (255, 0, 255) then "magenta"
  else if c = (0, 255, 255) then "cyan"
  else if c = (255, 165, 0) then "orange"
  else if c = (128, 0, 128) then "purple"
  else if c = (255, 192, 203) then "pink"
  else if c = (165, 42, 42) then "brown"
  else ""

/-- Python `int(q)`: truncation of a float (modelled as `ℚ`) toward zero. -/
def int_trunc (q : ℚ) : ℤ :=
  if q < 0 then -(⌊-q⌋) else ⌊q⌋

/-- One primitive drawing command issued to the `ImageDraw` backend. -/
inductive DrawCmd where
  | ellipseCmd (x0 y0 x1 y1 : ℤ) (fill : Color) (outline : Color) (lineWidth : ℕ)
  | rectangleCmd (x0 y0 x1 y1 : ℤ) (fill : Color) (outline : Color) (lineWidth : ℕ)
  | polygonCmd (points : List (ℤ × ℤ)) (fill : Color) (outline : Color) (lineWidth : ℕ)
  deriving DecidableEq

/-- A rendered canvas: its background color and the ordered drawing
commands applied to it. -/
structure Canvas where
  bg : Color
  cmds : List DrawCmd
  deriving DecidableEq

/-- Issuing a list of commands against a canvas appends them in order. -/
def Canvas.draw (canvas : Canvas) (newCmds : List DrawCmd) : Canvas :=
  { canvas with cmds := canvas.cmds ++ newCmds }

/-- `_draw_shape` (generator.py lines 227-261): the drawing commands one
shape emits.  An unrecognized `shape_type` emits nothing.  The ellipse
height `int(size * 0.7)` is modelled as `int_trunc (size * 7/10)`. -/
def draw_shape (shape_type : String) (x y size : ℕ) (color : Color) : List DrawCmd :=
  let half_size : ℤ := (size / 2 : ℕ)
  let xi : ℤ := (x : ℤ)
  let yi : ℤ := (y : ℤ)
  if shape_type = "circle" then
    [DrawCmd.ellipseCmd (xi - half_size) (yi - half_size) (xi + half_size) (yi + half_size)
      color (0, 0, 0) 2]
  else if shape_type = "rectangle" then
    [DrawCmd.rectangleCmd (xi - half_size) (yi - half_size) (xi + half_size) (yi + half_size)
      color (0, 0, 0) 2]
  else if shape_type = "ellipse" then
    let w : ℤ := (size : ℤ)
    let h : ℤ := int_trunc ((size : ℚ) * (7 / 10))
    [DrawCmd.ellipseCmd (xi - w / 2) (yi - h / 2) (xi + w / 2) (yi + h / 2)
      color (0, 0, 0) 2]
  else if shape_type = "triangle" then
    [DrawCmd.polygonCmd
      [(xi, yi - half_size), (xi - half_size, yi + half_size), (xi + half_size, yi + half_size)]
      color (0, 0, 0) 2]
  else []

/-- A fully populated shape record as built by `_generate_task_data`. -/
structure Shape where
  shape_type : String
  color : Color
  is_majority : Bool
  x : ℕ
  y : ℕ
  size : ℕ
  deriving DecidableEq

/-- The color/majority record built before geometry is assigned
(generator.py lines 124-140). -/
structure ShapeInfo where
  color : Color
  is_majority : Bool
  deriving DecidableEq

/-- The `TaskData` dictionary returned by `_generate_task_data`. -/
structure TaskData where
  shapes : List Shape
  majority_color : Color
  majority_color_name : String
  task_type : String
  deriving DecidableEq

/-- `_render_initial_state` (lines 191-206): blank white canvas, then every
shape drawn in list order. -/
def render_initial_state (task_data : TaskData) : Canvas :=
  task_data.shapes.foldl
    (fun img shape =>
      img.draw (draw_shape shape.shape_type shape.x shape.y shape.size shape.color))
    { bg := (255, 255, 255), cmds := [] }

/-- `_render_final_state` (lines 208-225): blank white canvas, then only the
shapes with `is_majority` drawn, in list order. -/
def render_final_state (task_data : TaskData) : Canvas :=
  task_data.shapes.foldl
    (fun img shape =>
      if shape.is_majority then
        img.draw (draw_shape shape.shape_type shape.x shape.y shape.size shape.color)
      else img)
    { bg := (255, 255, 255), cmds := [] }

/-- `_fade_color` (lines 263-269): blend each channel toward gray 200. -/
def fade_color (color : Color) (fade_factor : ℚ) : Color :=
  (int_trunc ((color.1 : ℚ) * fade_factor + 200 * (1 - fade_factor)),
   int_trunc ((color.2.1 : ℚ) * fade_factor + 200 * (1 - fade_factor)),
   int_trunc ((color.2.2 : ℚ) * fade_factor + 200 * (1 - fade_factor)))

/-- The configuration fields the core reads (an external collaborator;
see spec §6). -/
structure Config where
  width : ℕ
  height : ℕ
  num_colors : ℕ
  num_shapes : ℕ
  min_shape_size : ℕ
  max_shape_size : ℕ
  deriving DecidableEq

/-- Lower bound of the majority-count sampling range
(line 115): `max(1, num_shapes // 2 + 1)`. -/
def majority_lo (num_shapes : ℕ) : ℕ := max 1 (num_shapes / 2 + 1)

/-- Upper bound of the majority-count sampling range
(line 116): `num_shapes - len(other_colors)`. -/
def majority_hi (num_shapes num_other_colors : ℕ) : ℕ :=
  num_shapes - num_other_colors

/-- `_distribute_shapes` (lines 171-189).  The `remaining` loop's calls to
`random.randint(0, num_colors - 1)` are modelled by the oracle list
`picks` of chosen indices; `result[idx] += 1` is `List.set`. -/
def distribute_shapes (total num_colors : ℕ) (picks : List ℕ) : List ℕ :=
  if num_colors = 0 then []
  else if total < num_colors then
    List.replicate total 1 ++ List.replicate (num_colors - total) 0
  else
    picks.foldl (fun result idx => result.set idx (result.getD idx 0 + 1))
      (List.replicate num_colors 1)

/-- The oracle `picks` is exactly what the loop in `_distribute_shapes`
could consume: one index below `num_colors` per iteration, and the loop
runs `total - num_colors` times (zero times when the early-return
branches fire). -/
def valid_picks (total num_colors : ℕ) (picks : List ℕ) : Prop :=
  picks.length = (if num_colors = 0 ∨ total < num_colors then 0 else total - num_colors) ∧
  ∀ p ∈ picks, p < num_colors

instance (total num_colors : ℕ) (picks : List ℕ) :
    Decidable (valid_picks total num_colors picks) := by
  unfold valid_picks
  infer_instance

/-- `other_colors = [c for c in selected_colors if c != majority_color]`
(line 110). -/
def other_colors_of (selected_colors : List Color) (majority_color : Color) : List Color :=
  selected_colors.filter (fun c => c ≠ majority_color)

/-- The non-majority block of the shape list (lines 134-140):
`for i, color in enumerate(other_colors)` appends
`other_counts[i] if i < len(other_counts) else 1` copies of each color.
The structural recursion walks both lists in index order, falling back
to count 1 once `other_counts` is exhausted, exactly as the indexed
lookup does. -/
def other_shape_infos (other_colors : List Color) (other_counts : List ℕ) : List ShapeInfo :=
  match other_colors, other_counts with
  | [], _ => []
  | c :: cs, [] =>
      List.replicate 1 { color := c, is_majority := false } ++ other_shape_infos cs []
  | c :: cs, n :: ns =>
      List.replicate n { color := c, is_majority := false } ++ other_shape_infos cs ns

/-- Lines 110-140 of `_generate_task_data`: the shape-info list as built
before `random.shuffle` runs, for a given sampled `majority_count` and
distribution oracle `picks`. -/
def task_shape_infos (cfg : Config) (selected_colors : List Color) (majority_color : Color)
    (majority_count : ℕ) (picks : List ℕ) : List ShapeInfo :=
  let other_colors := other_colors_of selected_colors majority_color
  let remaining := cfg.num_shapes - majority_count
  let other_counts := distribute_shapes remaining other_colors.length picks
  List.replicate majority_count { color := majority_color, is_majority := true } ++
    other_shape_infos other_colors other_counts

/-- The per-shape geometry draws of lines 146-162: one sampled
`shape_type`, `size`, `x`, `y` per shape. -/
structure Geom where
  shape_type : String
  size : ℕ
  x : ℕ
  y : ℕ
  deriving DecidableEq

/-- The ranges the code requests from `random.randint` and
`random.choice` when sampling one shape's geometry (lines 148-153). -/
def geom_valid (cfg : Config) (g : Geom) : Prop :=
  cfg.min_shape_size ≤ g.size ∧ g.size ≤ cfg.max_shape_size ∧
  g.size / 2 ≤ g.x ∧ g.x ≤ cfg.width - g.size / 2 ∧
  g.size / 2 ≤ g.y ∧ g.y ≤ cfg.height - g.size / 2

instance (cfg : Config) (g : Geom) : Decidable (geom_valid cfg g) := by
  unfold geom_valid
  infer_instance

/-- Lines 155-162: combine one shuffled shape-info with its sampled
geometry. -/
def mk_shape (sg : ShapeInfo × Geom) : Shape :=
  { shape_type := sg.2.shape_type, color := sg.1.color, is_majority := sg.1.is_majority,
    x := sg.2.x, y := sg.2.y, size := sg.2.size }

/-- `_generate_task_data` (lines 100-169).  The random draws are oracle
parameters: `selected_colors` for `random.sample`, `majority_color` for
`random.choice`, `majority_count` for the `random.randint` of lines
114-117, `picks` for `_distribute_shapes`, `shuffled` for the list after
`random.shuffle` (theorems constrain it to a permutation of
`task_shape_infos`), and `geoms` for the per-shape draws. -/
def generate_task_data (cfg : Config) (selected_colors : List Color) (majority_color : Color)
    (majority_count : ℕ) (picks : List ℕ) (shuffled : List ShapeInfo) (geoms : List Geom) :
    TaskData :=
  { shapes := (shuffled.zip geoms).map mk_shape,
    majority_color := majority_color,
    majority_color_name := color_name majority_color,
    task_type := "default" }

/-- The tail of `_generate_video` (line 291): a falsy encoder result
(`None` or an empty path) becomes `None`, a truthy one is returned as
the path string. -/
def generate_video (encoder_result : Option String) : Option String :=
  match encoder_result with
  | some s => if s = "" then none else some s
  | none => none

/-- The `TaskPair` record (core/schemas.py) restricted to the fields the
core fills; images are modelled canvases. -/
structure TaskPair where
  task_id : String
  domain : String
  prompt : String
  first_image : Canvas
  final_image : Canvas
  ground_truth_video : Option String
  deriving DecidableEq

/-- `generate_task_pair` (lines 67-94).  The prompt draw is the oracle
`prompt`; the encoder (an external collaborator) is the oracle
`encoder_result`; `video_generator_available` models
`self.video_generator` being non-`None`. -/
def generate_task_pair (cfg : Config) (task_id domain prompt : String)
    (generate_videos video_generator_available : Bool) (encoder_result : Option String)
    (selected_colors : List Color) (majority_color : Color) (majority_count : ℕ)
    (picks : List ℕ) (shuffled : List ShapeInfo) (geoms : List Geom) : TaskPair :=
  let task_data := generate_task_data cfg selected_colors majority_color majority_count
    picks shuffled geoms
  let first_image := render_initial_state task_data
  let final_image := render_final_state task_data
  let video_path : Option String :=
    if generate_videos && video_generator_available then generate_video encoder_result
    else none
  { task_id := task_id, domain := domain, prompt := prompt,
    first_image := first_image, final_image := final_image,
    ground_truth_video := video_path }

/-- The interpolation parameter `i / (num_frames - 1) if num_frames > 1
else 1.0` used by both animation strategies (lines 318 and 345). -/
def fade_progress (i num_frames : ℕ) : ℚ :=
  if 1 < num_frames then (i : ℚ) / ((num_frames : ℚ) - 1) else 1

/-- The cross-fade blend coefficient of line 318:
`alpha = i / (transition_frames - 1) if transition_frames > 1 else 1.0`. -/
def blend_alpha (i transition_frames : ℕ) : ℚ :=
  if 1 < transition_frames then (i : ℚ) / ((transition_frames : ℚ) - 1) else 1

/-- `_create_fade_animation_frames` (lines 334-371): each frame re-renders
every shape on a gray-240 canvas; majority shapes keep their color,
non-majority shapes get `_fade_color(color, 1.0 - progress * 0.7)`. -/
def create_fade_animation_frames (task_data : TaskData) (cfg : Config)
    (num_frames : ℕ) : List Canvas :=
  (List.range num_frames).map (fun i =>
    let progress := fade_progress i num_frames
    task_data.shapes.foldl
      (fun img shape =>
        let color :=
          if shape.is_majority then shape.color
          else fade_color shape.color (1 - progress * (7 / 10))
        img.draw (draw_shape shape.shape_type shape.x shape.y shape.size color))
      { bg := (240, 240, 240), cmds := [] })

/-- An animation frame: either a rendered canvas or a pixel blend of two
frames (`Image.blend(start, end, alpha)`).  `copy()` and the RGB/RGBA
conversions are identities in this model, and the `resize` branch of
lines 314-315 never fires because both rendered frames share
`config.image_size`. -/
inductive FrameImage where
  | canvas (c : Canvas)
  | blendImg (a b : FrameImage) (alpha : ℚ)
  deriving DecidableEq

/-- The transition block of `_create_animation_frames` (lines 308-325):
cross-fade toward the final image when one exists, otherwise the
shape-fade fallback. -/
def transition_images (task_data : TaskData) (cfg : Config) (first_image : Canvas)
    (final_image : Option Canvas) (transition_frames : ℕ) : List FrameImage :=
  match final_image with
  | some fin =>
      (List.range transition_frames).map (fun i =>
        FrameImage.blendImg (FrameImage.canvas first_image) (FrameImage.canvas fin)
          (blend_alpha i transition_frames))
  | none =>
      (create_fade_animation_frames task_data cfg transition_frames).map FrameImage.canvas

/-- `_create_animation_frames` (lines 293-332): hold the first frame,
transition, then hold the final frame (`final_image` when supplied,
otherwise `frames[-1]`; the `getD` default of that last-element access is
unreachable whenever `hold_frames + transition_frames ≥ 1`, which is
exactly when the Python indexing does not raise). -/
def create_animation_frames (task_data : TaskData) (cfg : Config) (first_image : Canvas)
    (final_image : Option Canvas) (hold_frames transition_frames : ℕ) : List FrameImage :=
  let frames := List.replicate hold_frames (FrameImage.canvas first_image) ++
    transition_images task_data cfg first_image final_image transition_frames
  let final_frame : FrameImage :=
    match final_image with
    | some fin => FrameImage.canvas fin
    | none => frames.getLast?.getD (FrameImage.canvas first_image)
  frames ++ List.replicate hold_frames final_frame

/-! ## Helper lemmas -/

theorem countP_replicate {α : Type} (p : α → Bool) (n : ℕ) (a : α) :
    (List.replicate n a).countP p = if p a then n else 0 := by
  induction n with
  | zero => simp
  | succ k ih =>
    rw [List.replicate_succ, List.countP_cons, ih]
    by_cases h : p a <;> simp [h]

theorem foldl_draw_eq {α : Type} (l : List α) (f : α → List DrawCmd) (c : Canvas) :
    l.foldl (fun img s => img.draw (f s)) c = c.draw (l.flatMap f) := by
  induction l generalizing c with
  | nil => simp [Canvas.draw]
  | cons a as ih =>
    rw [List.foldl_cons, ih]
    simp [Canvas.draw, List.append_assoc]

theorem foldl_draw_filter_eq {α : Type} (l : List α) (p : α → Bool)
    (f : α → List DrawCmd) (c : Canvas) :
    l.foldl (fun img s => if p s then img.draw (f s) else img) c
      = c.draw ((l.filter p).flatMap f) := by
  induction l generalizing c with
  | nil => simp [Canvas.draw]
  | cons a as ih =>
    rw [List.foldl_cons]
    by_cases h : p a
    · rw [if_pos h, ih]
      simp [h, Canvas.draw, List.append_assoc]
    · rw [if_neg h, ih]
      simp [h]

theorem length_other_shape_infos (cs : List Color) (ns : List ℕ)
    (h : ns.length = cs.length) :
    (other_shape_infos cs ns).length = ns.sum := by
  induction cs generalizing ns with
  | nil =>
    cases ns with
    | nil => simp [other_shape_infos]
    | cons n ns => simp at h
  | cons c cs ih =>
    cases ns with
    | nil => simp at h
    | cons n ns =>
      simp only [other_shape_infos, List.length_append, List.length_replicate,
        List.sum_cons, ih ns (by simpa using h)]

theorem countP_other_shape_infos_ne (cs : List Color) (ns : List ℕ) (c : Color)
    (h : ∀ d ∈ cs, d ≠ c) :
    (other_shape_infos cs ns).countP (fun si => si.color = c) = 0 := by
  induction cs generalizing ns with
  | nil => cases ns <;> simp [other_shape_infos]
  | cons d cs ih =>
    have hd : d ≠ c := h d (by simp)
    have hrest : ∀ x ∈ cs, x ≠ c := fun x hx => h x (by simp [hx])
    cases ns with
    | nil =>
      simp [other_shape_infos, List.countP_append, countP_replicate, hd, ih [] hrest]
    | cons n ns =>
      simp [other_shape_infos, List.countP_append, countP_replicate, hd, ih ns hrest]

theorem countP_color_zip (shuffled : List ShapeInfo) (geoms : List Geom) (c : Color)
    (h : shuffled.length ≤ geoms.length) :
    ((shuffled.zip geoms).map mk_shape).countP (fun s => s.color = c)
      = shuffled.countP (fun si => si.color = c) := by
  induction shuffled generalizing geoms with
  | nil => simp
  | cons a as ih =>
    cases geoms with
    | nil => simp at h
    | cons g gs =>
      simp [List.zip_cons_cons, List.countP_cons, ih gs (by simpa using h), mk_shape]

theorem sum_set_getD (l : List ℕ) (i : ℕ) (h : i < l.length) :
    (l.set i (l.getD i 0 + 1)).sum = l.sum + 1 := by
  induction l generalizing i with
  | nil => simp at h
  | cons a as ih =>
    cases i with
    | zero => simp [List.getD_cons_zero]; omega
    | succ j =>
      have hj : j < as.length := by simpa using h
      show (a :: as.set j (as.getD j 0 + 1)).sum = (a :: as).sum + 1
      rw [List.sum_cons, List.sum_cons, ih j hj]
      omega

theorem distribute_foldl_length (picks : List ℕ) (init : List ℕ) :
    (picks.foldl (fun r idx => r.set idx (r.getD idx 0 + 1)) init).length
      = init.length := by
  induction picks generalizing init with
  | nil => rfl
  | cons p ps ih => rw [List.foldl_cons, ih, List.length_set]

theorem distribute_foldl_sum (picks : List ℕ) (init : List ℕ)
    (h : ∀ p ∈ picks, p < init.length) :
    (picks.foldl (fun r idx => r.set idx (r.getD idx 0 + 1)) init).sum
      = init.sum + picks.length := by
  induction picks generalizing init with
  | nil => simp
  | cons p ps ih =>
    have hp : p < init.length := h p (by simp)
    have hrest : ∀ q ∈ ps, q < (init.set p (init.getD p 0 + 1)).length := by
      intro q hq
      rw [List.length_set]
      exact h q (by simp [hq])
    rw [List.foldl_cons, ih _ hrest, sum_set_getD init p hp]
    simp only [List.length_cons]
    omega

theorem distribute_foldl_ge_one (picks : List ℕ) (init : List ℕ)
    (h : ∀ v ∈ init, 1 ≤ v) :
    ∀ v ∈ picks.foldl (fun r idx => r.set idx (r.getD idx 0 + 1)) init, 1 ≤ v := by
  induction picks generalizing init with
  | nil => exact h
  | cons p ps ih =>
    rw [List.foldl_cons]
    refine ih _ ?_
    intro v hv
    rcases List.mem_or_eq_of_mem_set hv with h1 | h2
    · exact h v h1
    · omega

theorem distribute_shapes_length (total num_colors : ℕ) (picks : List ℕ)
    (h : num_colors ≠ 0) :
    (distribute_shapes total num_colors picks).length = num_colors := by
  unfold distribute_shapes
  rw [if_neg h]
  split
  · rename_i hlt
    simp
    omega
  · exact (distribute_foldl_length picks (List.replicate num_colors 1)).trans
      (List.length_replicate num_colors 1)

theorem distribute_shapes_sum (total num_colors : ℕ) (picks : List ℕ)
    (hk : num_colors ≠ 0) (hp : valid_picks total num_colors picks) :
    (distribute_shapes total num_colors picks).sum = total := by
  obtain ⟨hlen, hbound⟩ := hp
  unfold distribute_shapes
  rw [if_neg hk]
  split
  · rename_i hlt
    simp [List.sum_append, List.sum_replicate]
  · rename_i hge
    have hlen' : picks.length = total - num_colors := by
      rw [hlen, if_neg]
      push_neg
      exact ⟨hk, le_of_not_lt hge⟩
    have hbound' : ∀ p ∈ picks, p < (List.replicate num_colors 1).length := by
      intro p hp'
      simpa using hbound p hp'
    rw [distribute_foldl_sum picks _ hbound', List.sum_replicate, hlen']
    simp
    omega

theorem distribute_shapes_ge_one (total num_colors : ℕ) (picks : List ℕ)
    (hk : num_colors ≠ 0) (hge : num_colors ≤ total) :
    ∀ v ∈ distribute_shapes total num_colors picks, 1 ≤ v := by
  unfold distribute_shapes
  rw [if_neg hk, if_neg (by omega)]
  refine distribute_foldl_ge_one picks _ ?_
  intro v hv
  rw [List.mem_replicate] at hv
  omega

theorem mem_other_colors_ne (selected : List Color) (majority : Color) :
    ∀ d ∈ other_colors_of selected majority, d ≠ majority := by
  intro d hd
  have := List.of_mem_filter hd
  simpa using this

theorem countP_task_shape_infos_majority (cfg : Config) (selected : List Color)
    (majority : Color) (mc : ℕ) (picks : List ℕ) :
    (task_shape_infos cfg selected majority mc picks).countP
      (fun si => si.color = majority) = mc := by
  unfold task_shape_infos
  rw [List.countP_append,
    countP_other_shape_infos_ne _ _ _ (mem_other_colors_ne selected majority),
    countP_replicate]
  simp

theorem countP_task_shape_infos_other (cfg : Config) (selected : List Color)
    (majority c : Color) (mc : ℕ) (picks : List ℕ)
    (hc : c ≠ majority)
    (hpicks : valid_picks (cfg.num_shapes - mc)
      (other_colors_of selected majority).length picks) :
    (task_shape_infos cfg selected majority mc picks).countP
      (fun si => si.color = c) ≤ cfg.num_shapes - mc := by
  unfold task_shape_infos
  rw [List.countP_append, countP_replicate]
  have hmaj0 : (decide (ShapeInfo.color { color := majority, is_majority := true } = c)) = false := by
    simp
    exact fun heq => hc heq.symm
  rw [hmaj0, if_neg (by simp), Nat.zero_add]
  by_cases hk : (other_colors_of selected majority).length = 0
  · have hnil : other_colors_of selected majority = [] := List.length_eq_zero.mp hk
    rw [hnil]
    simp [other_shape_infos]
  · calc (other_shape_infos (other_colors_of selected majority)
          (distribute_shapes (cfg.num_shapes - mc)
            (other_colors_of selected majority).length picks)).countP
          (fun si => si.color = c)
        ≤ (other_shape_infos (other_colors_of selected majority)
          (distribute_shapes (cfg.num_shapes - mc)
            (other_colors_of selected majority).length picks)).length :=
          List.countP_le_length _
      _ = (distribute_shapes (cfg.num_shapes - mc)
            (other_colors_of selected majority).length picks).sum :=
          length_other_shape_infos _ _ (distribute_shapes_length _ _ _ hk)
      _ = cfg.num_shapes - mc := distribute_shapes_sum _ _ _ hk hpicks

theorem length_task_shape_infos (cfg : Config) (selected : List Color)
    (majority : Color) (mc : ℕ) (picks : List ℕ)
    (hk : (other_colors_of selected majority).length ≠ 0)
    (hpicks : valid_picks (cfg.num_shapes - mc)
      (other_colors_of selected majority).length picks) :
    (task_shape_infos cfg selected majority mc picks).length
      = mc + (cfg.num_shapes - mc) := by
  unfold task_shape_infos
  rw [List.length_append, List.length_replicate,
    length_other_shape_infos _ _ (distribute_shapes_length _ _ _ hk),
    distribute_shapes_sum _ _ _ hk hpicks]

theorem length_create_fade_animation_frames (td : TaskData) (cfg : Config) (n : ℕ) :
    (create_fade_animation_frames td cfg n).length = n := by
  simp [create_fade_animation_frames]

theorem length_transition_images (td : TaskData) (cfg : Config) (first : Canvas)
    (fin : Option Canvas) (t : ℕ) :
    (transition_images td cfg first fin t).length = t := by
  cases fin <;> simp [transition_images, length_create_fade_animation_frames]

/-! ## Claim theorems -/

/-- C1: whenever the majority-count sampling of `_generate_task_data`
succeeds (the sampled `majority_count` lies in the requested range), the
returned shape list contains strictly more shapes of the majority color
than of any other single color, and
`majority_count ≥ num_shapes / 2 + 1`. -/
theorem majority_color_strictly_dominates
    (cfg : Config) (selected : List Color) (majority c : Color) (mc : ℕ)
    (picks : List ℕ) (shuffled : List ShapeInfo) (geoms : List Geom)
    (hlo : majority_lo cfg.num_shapes ≤ mc)
    (hhi : mc ≤ majority_hi cfg.num_shapes (other_colors_of selected majority).length)
    (hpicks : valid_picks (cfg.num_shapes - mc)
      (other_colors_of selected majority).length picks)
    (hshuffle : shuffled.Perm (task_shape_infos cfg selected majority mc picks))
    (hgeoms : geoms.length = shuffled.length)
    (hc : c ≠ majority) :
    (generate_task_data cfg selected majority mc picks shuffled geoms).shapes.countP
        (fun s => s.color = c)
      < (generate_task_data cfg selected majority mc picks shuffled geoms).shapes.countP
        (fun s => s.color = majority)
    ∧ cfg.num_shapes / 2 + 1 ≤ mc := by
  have hlo' : cfg.num_shapes / 2 + 1 ≤ mc :=
    le_trans (le_max_right 1 (cfg.num_shapes / 2 + 1)) hlo
  have hcount : ∀ d : Color,
      (generate_task_data cfg selected majority mc picks shuffled geoms).shapes.countP
        (fun s => s.color = d)
      = (task_shape_infos cfg selected majority mc picks).countP
        (fun si => si.color = d) := by
    intro d
    show ((shuffled.zip geoms).map mk_shape).countP (fun s => s.color = d) = _
    rw [countP_color_zip shuffled geoms d (le_of_eq hgeoms.symm)]
    exact hshuffle.countP_eq _
  refine ⟨?_, hlo'⟩
  rw [hcount c, hcount majority, countP_task_shape_infos_majority]
  have hoth := countP_task_shape_infos_other cfg selected majority c mc picks hc hpicks
  omega

/-- Concrete fixture: a five-shape, two-color configuration. -/
def cfg5 : Config :=
  { width := 200, height := 200, num_colors := 2, num_shapes := 5,
    min_shape_size := 10, max_shape_size := 20 }

/-- Concrete fixture: two selected palette colors. -/
def selected2 : List Color := [(255, 0, 0), (0, 255, 0)]

/-- Concrete fixture: the pre-shuffle shape infos for `cfg5`. -/
def infos5 : List ShapeInfo := task_shape_infos cfg5 selected2 (255, 0, 0) 3 [0]

/-- Concrete fixture: five identical geometry draws valid for `cfg5`. -/
def geoms5 : List Geom :=
  List.replicate 5 { shape_type := "circle", size := 10, x := 50, y := 50 }

/-- Witness for C1 at the concrete fixture. -/
theorem majority_color_strictly_dominates_witness :
    (majority_lo cfg5.num_shapes ≤ 3
      ∧ 3 ≤ majority_hi cfg5.num_shapes (other_colors_of selected2 (255, 0, 0)).length
      ∧ valid_picks (cfg5.num_shapes - 3) (other_colors_of selected2 (255, 0, 0)).length [0]
      ∧ infos5.Perm (task_shape_infos cfg5 selected2 (255, 0, 0) 3 [0])
      ∧ geoms5.length = infos5.length
      ∧ ((0, 255, 0) : Color) ≠ (255, 0, 0))
    ∧ ((generate_task_data cfg5 selected2 (255, 0, 0) 3 [0] infos5 geoms5).shapes.countP
          (fun s => s.color = ((0, 255, 0) : Color))
        < (generate_task_data cfg5 selected2 (255, 0, 0) 3 [0] infos5 geoms5).shapes.countP
          (fun s => s.color = ((255, 0, 0) : Color))
      ∧ cfg5.num_shapes / 2 + 1 ≤ 3) :=
  ⟨⟨by decide, by decide, by decide, List.Perm.refl _, by decide, by decide⟩,
    majority_color_strictly_dominates cfg5 selected2 (255, 0, 0) (0, 255, 0) 3 [0] infos5
      geoms5 (by decide) (by decide) (by decide) (List.Perm.refl _) (by decide) (by decide)⟩

/-- C2 (code bug): with `num_shapes = 2` and `num_colors = 2` the
majority-count range of `_generate_task_data` is empty — the lower bound
`max(1, 2 // 2 + 1) = 2` exceeds the upper bound `2 - 1 = 1` — so the
`random.randint` call of lines 114-117 raises `ValueError` instead of
collapsing the range to a single feasible value as specified. -/
theorem majority_range_infeasible_at_two_two :
    majority_lo 2 = 2
    ∧ majority_hi 2 (other_colors_of selected2 (255, 0, 0)).length = 1
    ∧ majority_hi 2 (other_colors_of selected2 (255, 0, 0)).length < majority_lo 2 := by
  decide

/-- C3: for every `hold_frames ≥ 0` and `transition_frames ≥ 1`,
`_create_animation_frames` returns exactly
`2 * hold_frames + transition_frames` frames and is never empty:
`hold_frames` copies of the first image, then the `transition_frames`
transition block, then `hold_frames` copies of the final image (of the
last transition frame when no final image is supplied). -/
theorem animation_frames_structure (td : TaskData) (cfg : Config) (first : Canvas)
    (fin : Option Canvas) (hold t : ℕ) (ht : 1 ≤ t) :
    (create_animation_frames td cfg first fin hold t).length = 2 * hold + t
    ∧ create_animation_frames td cfg first fin hold t ≠ []
    ∧ (transition_images td cfg first fin t).length = t
    ∧ transition_images td cfg first fin t ≠ []
    ∧ create_animation_frames td cfg first fin hold t
      = List.replicate hold (FrameImage.canvas first)
        ++ transition_images td cfg first fin t
        ++ List.replicate hold
          (match fin with
           | some f => FrameImage.canvas f
           | none => (transition_images td cfg first fin t).getLast?.getD
               (FrameImage.canvas first)) := by
  have hlen : (transition_images td cfg first fin t).length = t :=
    length_transition_images td cfg first fin t
  have hne : transition_images td cfg first fin t ≠ [] := by
    intro hnil
    rw [hnil] at hlen
    simp at hlen
    omega
  have hlen2 : (create_animation_frames td cfg first fin hold t).length = 2 * hold + t := by
    simp [create_animation_frames, hlen]
    omega
  refine ⟨hlen2, ?_, hlen, hne, ?_⟩
  · intro hnil
    rw [hnil] at hlen2
    simp at hlen2
    omega
  · unfold create_animation_frames
    cases fin with
    | some f => rw [List.append_assoc]
    | none =>
      rw [List.append_assoc, List.getLast?_append]
      obtain ⟨x, hx⟩ := Option.isSome_iff_exists.mp (List.getLast?_isSome.mpr hne)
      rw [hx]
      simp

/-- Concrete fixture: an empty white canvas. -/
def canvasW : Canvas := { bg := (255, 255, 255), cmds := [] }

/-- Concrete fixture: an empty task data record. -/
def tdW : TaskData :=
  { shapes := [], majority_color := (255, 0, 0), majority_color_name := "red",
    task_type := "default" }

/-- Witness for C3 at the concrete fixture. -/
theorem animation_frames_structure_witness :
    (1 ≤ 2)
    ∧ ((create_animation_frames tdW cfg5 canvasW (some canvasW) 1 2).length = 2 * 1 + 2
      ∧ create_animation_frames tdW cfg5 canvasW (some canvasW) 1 2 ≠ []
      ∧ (transition_images tdW cfg5 canvasW (some canvasW) 2).length = 2
      ∧ transition_images tdW cfg5 canvasW (some canvasW) 2 ≠ []
      ∧ create_animation_frames tdW cfg5 canvasW (some canvasW) 1 2
        = List.replicate 1 (FrameImage.canvas canvasW)
          ++ transition_images tdW cfg5 canvasW (some canvasW) 2
          ++ List.replicate 1
            (match (some canvasW : Option Canvas) with
             | some f => FrameImage.canvas f
             | none => (transition_images tdW cfg5 canvasW (some canvasW) 2).getLast?.getD
                 (FrameImage.canvas canvasW))) :=
  ⟨by decide, animation_frames_structure tdW cfg5 canvasW (some canvasW) 1 2 (by decide)⟩

/-- C4: the cross-fade blend coefficient is `i / (transition_frames - 1)`
when `transition_frames > 1` and exactly `1` when
`transition_frames = 1`; the division is guarded so its denominator is
nonzero whenever the dividing branch is taken, and transition frame `i`
blends the first and final image with exactly this coefficient. -/
theorem blend_alpha_guarded (td : TaskData) (cfg : Config) (first fin : Canvas)
    (i t : ℕ) (ht : 1 ≤ t) (hi : i < t) :
    (t = 1 → blend_alpha i t = 1)
    ∧ (1 < t → blend_alpha i t = (i : ℚ) / ((t : ℚ) - 1) ∧ ((t : ℚ) - 1) ≠ 0)
    ∧ (transition_images td cfg first (some fin) t)[i]?
      = some (FrameImage.blendImg (FrameImage.canvas first) (FrameImage.canvas fin)
          (blend_alpha i t)) := by
  refine ⟨?_, ?_, ?_⟩
  · intro h1
    subst h1
    simp [blend_alpha]
  · intro h1
    refine ⟨by rw [blend_alpha, if_pos h1], ?_⟩
    have hcast : (1 : ℚ) < (t : ℚ) := by exact_mod_cast h1
    intro hz
    rw [sub_eq_zero] at hz
    rw [hz] at hcast
    exact lt_irrefl 1 hcast
  · simp [transition_images, List.getElem?_map, List.getElem?_range hi]

/-- Witness for C4 at `i = 1`, `transition_frames = 3`. -/
theorem blend_alpha_guarded_witness :
    (1 ≤ 3 ∧ 1 < 3)
    ∧ ((3 = 1 → blend_alpha 1 3 = 1)
      ∧ (1 < 3 → blend_alpha 1 3 = ((1 : ℕ) : ℚ) / (((3 : ℕ) : ℚ) - 1)
          ∧ (((3 : ℕ) : ℚ) - 1) ≠ 0)
      ∧ (transition_images tdW cfg5 canvasW (some canvasW) 3)[1]?
        = some (FrameImage.blendImg (FrameImage.canvas canvasW) (FrameImage.canvas canvasW)
            (blend_alpha 1 3))) :=
  ⟨⟨by decide, by decide⟩,
    blend_alpha_guarded tdW cfg5 canvasW canvasW 1 3 (by decide) (by decide)⟩

/-- C5: the initial frame draws every shape in list order on a white
background, and the final frame draws exactly the `is_majority = true`
shapes, in their relative list order, on a white background — no
non-majority shape is drawn in the final frame. -/
theorem render_states_spec (td : TaskData) :
    render_initial_state td
      = { bg := (255, 255, 255),
          cmds := td.shapes.flatMap
            (fun s => draw_shape s.shape_type s.x s.y s.size s.color) }
    ∧ render_final_state td
      = { bg := (255, 255, 255),
          cmds := (td.shapes.filter (fun s => s.is_majority)).flatMap
            (fun s => draw_shape s.shape_type s.x s.y s.size s.color) } := by
  constructor
  · rw [render_initial_state, foldl_draw_eq]
    simp [Canvas.draw]
  · rw [render_final_state, foldl_draw_filter_eq]
    simp [Canvas.draw]

/-- C6: every shape produced by `_generate_task_data` lies fully inside
the canvas: with `half_size = size / 2`,
`half_size ≤ x ≤ width - half_size` and likewise for `y`, and the size is
drawn from `[min_shape_size, max_shape_size]`. -/
theorem shape_within_bounds
    (cfg : Config) (selected : List Color) (majority : Color) (mc : ℕ)
    (picks : List ℕ) (shuffled : List ShapeInfo) (geoms : List Geom)
    (hg : ∀ g ∈ geoms, geom_valid cfg g) (shape : Shape)
    (hs : shape ∈ (generate_task_data cfg selected majority mc picks shuffled geoms).shapes) :
    (shape.size / 2 ≤ shape.x ∧ shape.x ≤ cfg.width - shape.size / 2)
    ∧ (shape.size / 2 ≤ shape.y ∧ shape.y ≤ cfg.height - shape.size / 2)
    ∧ (cfg.min_shape_size ≤ shape.size ∧ shape.size ≤ cfg.max_shape_size) := by
  have hs' : shape ∈ (shuffled.zip geoms).map mk_shape := hs
  rw [List.mem_map] at hs'
  obtain ⟨⟨si, g⟩, hmem, rfl⟩ := hs'
  have hgeom : g ∈ geoms := (List.of_mem_zip hmem).2
  obtain ⟨h1, h2, h3, h4, h5, h6⟩ := hg g hgeom
  exact ⟨⟨h3, h4⟩, ⟨h5, h6⟩, h1, h2⟩

/-- Witness for C6 at the concrete fixture. -/
theorem shape_within_bounds_witness :
    ((∀ g ∈ geoms5, geom_valid cfg5 g)
      ∧ mk_shape ({ color := (255, 0, 0), is_majority := true },
            { shape_type := "circle", size := 10, x := 50, y := 50 })
          ∈ (generate_task_data cfg5 selected2 (255, 0, 0) 3 [0] infos5 geoms5).shapes)
    ∧ (((mk_shape ({ color := (255, 0, 0), is_majority := true },
            { shape_type := "circle", size := 10, x := 50, y := 50 })).size / 2
          ≤ (mk_shape ({ color := (255, 0, 0), is_majority := true },
            { shape_type := "circle", size := 10, x := 50, y := 50 })).x
        ∧ (mk_shape ({ color := (255, 0, 0), is_majority := true },
            { shape_type := "circle", size := 10, x := 50, y := 50 })).x
          ≤ cfg5.width - (mk_shape ({ color := (255, 0, 0), is_majority := true },
            { shape_type := "circle", size := 10, x := 50, y := 50 })).size / 2)
      ∧ ((mk_shape ({ color := (255, 0, 0), is_majority := true },
            { shape_type := "circle", size := 10, x := 50, y := 50 })).size / 2
          ≤ (mk_shape ({ color := (255, 0, 0), is_majority := true },
            { shape_type := "circle", size := 10, x := 50, y := 50 })).y
        ∧ (mk_shape ({ color := (255, 0, 0), is_majority := true },
            { shape_type := "circle", size := 10, x := 50, y := 50 })).y
          ≤ cfg5.height - (mk_shape ({ color := (255, 0, 0), is_majority := true },
            { shape_type := "circle", size := 10, x := 50, y := 50 })).size / 2)
      ∧ (cfg5.min_shape_size
          ≤ (mk_shape ({ color := (255, 0, 0), is_majority := true },
            { shape_type := "circle", size := 10, x := 50, y := 50 })).size
        ∧ (mk_shape ({ color := (255, 0, 0), is_majority := true },
            { shape_type := "circle", size := 10, x := 50, y := 50 })).size
          ≤ cfg5.max_shape_size)) :=
  ⟨⟨by decide, by decide⟩,
    shape_within_bounds cfg5 selected2 (255, 0, 0) 3 [0] infos5 geoms5 (by decide)
      (mk_shape ({ color := (255, 0, 0), is_majority := true },
        { shape_type := "circle", size := 10, x := 50, y := 50 })) (by decide)⟩

/-- C7: every shape-fade transition frame passes every shape of the task
data to the renderer — majority shapes with their original color,
non-majority shapes with their color blended toward gray 200 by the fade
factor `1 - 0.7 * progress`, which is `1` at progress `0` and `3/10` at
progress `1` — and no non-majority shape's drawing commands are omitted
from any frame. -/
theorem fade_frames_draw_all_shapes (td : TaskData) (cfg : Config) (n i : ℕ)
    (hi : i < n) (shape : Shape) (hshape : shape ∈ td.shapes)
    (hnm : shape.is_majority = false) (cmd : DrawCmd)
    (hcmd : cmd ∈ draw_shape shape.shape_type shape.x shape.y shape.size
      (fade_color shape.color (1 - fade_progress i n * (7 / 10)))) :
    (create_fade_animation_frames td cfg n)[i]?
      = some { bg := (240, 240, 240),
               cmds := td.shapes.flatMap (fun s =>
                 draw_shape s.shape_type s.x s.y s.size
                   (if s.is_majority then s.color
                    else fade_color s.color (1 - fade_progress i n * (7 / 10)))) }
    ∧ cmd ∈ td.shapes.flatMap (fun s =>
        draw_shape s.shape_type s.x s.y s.size
          (if s.is_majority then s.color
           else fade_color s.color (1 - fade_progress i n * (7 / 10))))
    ∧ (1 - (0 : ℚ) * (7 / 10)) = 1 ∧ (1 - (1 : ℚ) * (7 / 10)) = 3 / 10 := by
  refine ⟨?_, ?_, by norm_num, by norm_num⟩
  · rw [create_fade_animation_frames]
    rw [List.getElem?_map, List.getElem?_range hi, Option.map_some']
    refine congrArg some ?_
    refine (foldl_draw_eq td.shapes (fun s =>
      draw_shape s.shape_type s.x s.y s.size
        (if s.is_majority then s.color
         else fade_color s.color (1 - fade_progress i n * (7 / 10))))
      { bg := (240, 240, 240), cmds := [] }).trans ?_
    simp [Canvas.draw]
  · refine List.mem_flatMap.mpr ⟨shape, hshape, ?_⟩
    rw [hnm]
    simpa using hcmd

/-- Concrete fixture: a single non-majority circle shape. -/
def shapeNM : Shape :=
  { shape_type := "circle", color := (255, 0, 0), is_majority := false,
    x := 50, y := 50, size := 10 }

/-- Concrete fixture: task data holding only `shapeNM`. -/
def td1 : TaskData :=
  { shapes := [shapeNM], majority_color := (0, 255, 0), majority_color_name := "green",
    task_type := "default" }

/-- Witness for C7 at frame 0 of a two-frame fade. -/
theorem fade_frames_draw_all_shapes_witness :
    ((0 < 2) ∧ shapeNM ∈ td1.shapes ∧ shapeNM.is_majority = false
      ∧ DrawCmd.ellipseCmd 45 45 55 55 (255, 0, 0) (0, 0, 0) 2
        ∈ draw_shape shapeNM.shape_type shapeNM.x shapeNM.y shapeNM.size
          (fade_color shapeNM.color (1 - fade_progress 0 2 * (7 / 10))))
    ∧ ((create_fade_animation_frames td1 cfg5 2)[0]?
        = some { bg := (240, 240, 240),
                 cmds := td1.shapes.flatMap (fun s =>
                   draw_shape s.shape_type s.x s.y s.size
                     (if s.is_majority then s.color
                      else fade_color s.color (1 - fade_progress 0 2 * (7 / 10)))) }
      ∧ DrawCmd.ellipseCmd 45 45 55 55 (255, 0, 0) (0, 0, 0) 2
        ∈ td1.shapes.flatMap (fun s =>
            draw_shape s.shape_type s.x s.y s.size
              (if s.is_majority then s.color
               else fade_color s.color (1 - fade_progress 0 2 * (7 / 10))))
      ∧ (1 - (0 : ℚ) * (7 / 10)) = 1 ∧ (1 - (1 : ℚ) * (7 / 10)) = 3 / 10) :=
  ⟨⟨by decide, by decide, by decide,
      by norm_num [shapeNM, draw_shape, fade_color, fade_progress, int_trunc]⟩,
    fade_frames_draw_all_shapes td1 cfg5 2 0 (by decide) shapeNM (by decide) (by decide)
      (DrawCmd.ellipseCmd 45 45 55 55 (255, 0, 0) (0, 0, 0) 2)
      (by norm_num [shapeNM, draw_shape, fade_color, fade_progress, int_trunc])⟩

/-- C8: if video generation is disabled, the encoder is unavailable, or
the encoder returns a falsy result, `generate_task_pair` still returns a
complete task pair (both frames rendered) with
`ground_truth_video = None` and does not fail; a truthy encoder result
is returned as the video path string. -/
theorem task_pair_video_soft_failure (cfg : Config) (task_id domain prompt : String)
    (gv avail : Bool) (enc : Option String) (selected : List Color) (majority : Color)
    (mc : ℕ) (picks : List ℕ) (shuffled : List ShapeInfo) (geoms : List Geom)
    (s : String) :
    ((enc = none ∨ enc = some "" ∨ gv = false ∨ avail = false) →
      (generate_task_pair cfg task_id domain prompt gv avail enc selected majority mc
        picks shuffled geoms).ground_truth_video = none)
    ∧ ((enc = some s ∧ s ≠ "" ∧ gv = true ∧ avail = true) →
      (generate_task_pair cfg task_id domain prompt gv avail enc selected majority mc
        picks shuffled geoms).ground_truth_video = some s)
    ∧ (generate_task_pair cfg task_id domain prompt gv avail enc selected majority mc
        picks shuffled geoms).first_image
      = render_initial_state
          (generate_task_data cfg selected majority mc picks shuffled geoms)
    ∧ (generate_task_pair cfg task_id domain prompt gv avail enc selected majority mc
        picks shuffled geoms).final_image
      = render_final_state
          (generate_task_data cfg selected majority mc picks shuffled geoms) := by
  refine ⟨?_, ?_, rfl, rfl⟩
  · rintro (rfl | rfl | rfl | rfl) <;> simp [generate_task_pair, generate_video]
  · rintro ⟨rfl, hs, rfl, rfl⟩
    simp [generate_task_pair, generate_video, hs]

/-- Witness for C8: a falsy encoder result yields no video, a truthy one
yields the path. -/
theorem task_pair_video_soft_failure_witness :
    (generate_task_pair cfg5 "t0" "majority_color" "p" true true none selected2 (255, 0, 0)
        3 [0] infos5 geoms5).ground_truth_video = none
    ∧ (generate_task_pair cfg5 "t0" "majority_color" "p" true true (some "out.mp4")
        selected2 (255, 0, 0) 3 [0] infos5 geoms5).ground_truth_video = some "out.mp4" :=
  ⟨(task_pair_video_soft_failure cfg5 "t0" "majority_color" "p" true true none selected2
      (255, 0, 0) 3 [0] infos5 geoms5 "out.mp4").1 (Or.inl rfl),
    (task_pair_video_soft_failure cfg5 "t0" "majority_color" "p" true true (some "out.mp4")
      selected2 (255, 0, 0) 3 [0] infos5 geoms5 "out.mp4").2.1
      ⟨rfl, by decide, rfl, rfl⟩⟩

/-- C9: `_draw_shape` with a `shape_type` outside
`{circle, rectangle, ellipse, triangle}` emits no drawing command,
leaves the canvas unchanged, and does not fail. -/
theorem draw_shape_unknown_noop (t : String) (x y size : ℕ) (color : Color)
    (canvas : Canvas)
    (h : t ≠ "circle" ∧ t ≠ "rectangle" ∧ t ≠ "ellipse" ∧ t ≠ "triangle") :
    draw_shape t x y size color = []
    ∧ canvas.draw (draw_shape t x y size color) = canvas := by
  obtain ⟨h1, h2, h3, h4⟩ := h
  have he : draw_shape t x y size color = [] := by
    simp [draw_shape, h1, h2, h3, h4]
  refine ⟨he, ?_⟩
  rw [he]
  simp [Canvas.draw]

/-- Witness for C9 at the unknown shape type `"star"`. -/
theorem draw_shape_unknown_noop_witness :
    (("star" : String) ≠ "circle" ∧ ("star" : String) ≠ "rectangle"
      ∧ ("star" : String) ≠ "ellipse" ∧ ("star" : String) ≠ "triangle")
    ∧ (draw_shape "star" 50 50 10 (255, 0, 0) = []
      ∧ canvasW.draw (draw_shape "star" 50 50 10 (255, 0, 0)) = canvasW) :=
  ⟨by decide,
    draw_shape_unknown_noop "star" 50 50 10 (255, 0, 0) canvasW (by decide)⟩

/-- C10 (amended): whenever the majority-count sampling succeeds and at
least one other color exists, the shape list returned by
`_generate_task_data` has exactly `num_shapes` entries —
`majority_count` majority shapes plus other counts summing to
`num_shapes - majority_count` — and `_distribute_shapes(total, k)`
returns a length-`k` list of non-negative integers summing to `total`
whenever `k ≥ 1`, with every entry at least 1 when `total ≥ k`. -/
theorem shape_list_length_eq_num_shapes
    (cfg : Config) (selected : List Color) (majority : Color) (mc : ℕ)
    (picks : List ℕ) (shuffled : List ShapeInfo) (geoms : List Geom)
    (hother : (other_colors_of selected majority).length ≠ 0)
    (hhi : mc ≤ majority_hi cfg.num_shapes (other_colors_of selected majority).length)
    (hpicks : valid_picks (cfg.num_shapes - mc)
      (other_colors_of selected majority).length picks)
    (hshuffle : shuffled.Perm (task_shape_infos cfg selected majority mc picks))
    (hgeoms : geoms.length = shuffled.length) :
    (generate_task_data cfg selected majority mc picks shuffled geoms).shapes.length
      = cfg.num_shapes
    ∧ (distribute_shapes (cfg.num_shapes - mc) (other_colors_of selected majority).length
        picks).length = (other_colors_of selected majority).length
    ∧ (distribute_shapes (cfg.num_shapes - mc) (other_colors_of selected majority).length
        picks).sum = cfg.num_shapes - mc
    ∧ ((other_colors_of selected majority).length ≤ cfg.num_shapes - mc →
        ∀ v ∈ distribute_shapes (cfg.num_shapes - mc)
          (other_colors_of selected majority).length picks, 1 ≤ v) := by
  refine ⟨?_, distribute_shapes_length _ _ _ hother,
    distribute_shapes_sum _ _ _ hother hpicks,
    fun hge => distribute_shapes_ge_one _ _ _ hother hge⟩
  show ((shuffled.zip geoms).map mk_shape).length = cfg.num_shapes
  rw [List.length_map, List.length_zip, hgeoms, min_self, hshuffle.length_eq,
    length_task_shape_infos cfg selected majority mc picks hother hpicks]
  unfold majority_hi at hhi
  omega

/-- Witness for C10 at the concrete fixture. -/
theorem shape_list_length_eq_num_shapes_witness :
    ((other_colors_of selected2 (255, 0, 0)).length ≠ 0
      ∧ 3 ≤ majority_hi cfg5.num_shapes (other_colors_of selected2 (255, 0, 0)).length
      ∧ valid_picks (cfg5.num_shapes - 3) (other_colors_of selected2 (255, 0, 0)).length [0]
      ∧ infos5.Perm (task_shape_infos cfg5 selected2 (255, 0, 0) 3 [0])
      ∧ geoms5.length = infos5.length)
    ∧ ((generate_task_data cfg5 selected2 (255, 0, 0) 3 [0] infos5 geoms5).shapes.length
        = cfg5.num_shapes
      ∧ (distribute_shapes (cfg5.num_shapes - 3)
          (other_colors_of selected2 (255, 0, 0)).length [0]).length
        = (other_colors_of selected2 (255, 0, 0)).length
      ∧ (distribute_shapes (cfg5.num_shapes - 3)
          (other_colors_of selected2 (255, 0, 0)).length [0]).sum = cfg5.num_shapes - 3
      ∧ ((other_colors_of selected2 (255, 0, 0)).length ≤ cfg5.num_shapes - 3 →
          ∀ v ∈ distribute_shapes (cfg5.num_shapes - 3)
            (other_colors_of selected2 (255, 0, 0)).length [0], 1 ≤ v)) :=
  ⟨⟨by decide, by decide, by decide, List.Perm.refl _, by decide⟩,
    shape_list_length_eq_num_shapes cfg5 selected2 (255, 0, 0) 3 [0] infos5 geoms5
      (by decide) (by decide) (by decide) (List.Perm.refl _) (by decide)⟩

/-- Concrete fixture: a single-color, three-shape configuration. -/
def cfg3 : Config :=
  { width := 200, height := 200, num_colors := 1, num_shapes := 3,
    min_shape_size := 10, max_shape_size := 20 }

/-- Concrete fixture: the pre-shuffle shape infos for `cfg3` with
`majority_count = 2` (two red shapes, no other color). -/
def infos1 : List ShapeInfo := task_shape_infos cfg3 [(255, 0, 0)] (255, 0, 0) 2 []

/-- Concrete fixture: two geometry draws for `cfg3`. -/
def geoms2 : List Geom :=
  List.replicate 2 { shape_type := "circle", size := 10, x := 50, y := 50 }

/-- Counterexample to C10 as stated: with `num_colors = 1` and
`num_shapes = 3` the majority-count sampling succeeds with
`majority_count = 2` (the range `[2, 3]` is feasible), yet the returned
shape list has only 2 entries, not `num_shapes = 3`: the remainder
`3 - 2 = 1` is silently dropped because `_distribute_shapes(1, 0)`
returns the empty list, which sums to `0`, not to its `total`. -/
theorem shape_list_length_counterexample :
    (majority_lo cfg3.num_shapes ≤ 2
      ∧ 2 ≤ majority_hi cfg3.num_shapes (other_colors_of [(255, 0, 0)] (255, 0, 0)).length
      ∧ valid_picks (cfg3.num_shapes - 2) (other_colors_of [(255, 0, 0)] (255, 0, 0)).length []
      ∧ infos1.Perm (task_shape_infos cfg3 [(255, 0, 0)] (255, 0, 0) 2 [])
      ∧ geoms2.length = infos1.length)
    ∧ (generate_task_data cfg3 [(255, 0, 0)] (255, 0, 0) 2 [] infos1 geoms2).shapes.length
      = 2
    ∧ (generate_task_data cfg3 [(255, 0, 0)] (255, 0, 0) 2 [] infos1 geoms2).shapes.length
      ≠ cfg3.num_shapes
    ∧ (distribute_shapes 1 0 []).length = 0
    ∧ (distribute_shapes 1 0 []).sum = 0
    ∧ (distribute_shapes 1 0 []).sum ≠ 1 := by
  decide
